import Mathlib

/-!
Verification of the terminal chatbot management command
(`Chat_app/management/commands/chat_app_terminal.py`).

The command wires an external conversational engine (ChatterBot) to a
terminal read-eval-print loop.  The external engine is opaque: we model
its three entry points (construction, training, response dispatch) as
function parameters returning `Except String _`, where the `.error` case
stands for a raised Python exception carrying the exception text.

Terminal input is modelled as a list of events: a line of text, an
end-of-input signal (`EOFError`) or an interrupt (`KeyboardInterrupt`).
Each `print(...)` is recorded as one output string ending in a newline,
exactly as the source formats it.

`py_strip` models Python's `str.strip()` and `is_sentinel` models
`user_text.lower() in` the set holding "exit" and "quit".  The whitespace
set is the ASCII part of Python's definition (space, tab, LF, CR, VT, FF);
the claims only exercise ASCII input.  Likewise `py_lower` models
`str.lower()` on the ASCII inputs at issue.
-/

/-- ASCII whitespace characters stripped by Python's `str.strip()`:
space, tab, newline, carriage return, vertical tab, form feed. -/
def is_py_space (c : Char) : Bool :=
  c = ' ' || c = '\t' || c = '\n' || c = '\r' || c = '\x0b' || c = '\x0c'

/-- Strip `is_py_space` characters from both ends of a character list. -/
def strip_chars (l : List Char) : List Char :=
  ((l.dropWhile is_py_space).reverse.dropWhile is_py_space).reverse

/-- Model of Python's `str.strip()` (line 85 of the source): remove
leading and trailing whitespace. -/
def py_strip (s : String) : String :=
  ⟨strip_chars s.data⟩

/-- Model of Python's `str.lower()` (ASCII range): lower-case every
character. -/
def py_lower (s : String) : String :=
  ⟨s.data.map Char.toLower⟩

/-- Model of `user_text.lower() in` the set of the two sentinel words
(line 91 of the source). -/
def is_sentinel (t : String) : Bool :=
  py_lower t == "exit" || py_lower t == "quit"

/-- One terminal input event: a line typed by the operator, an
end-of-input signal (`EOFError` from Ctrl+D) or an interrupt
(`KeyboardInterrupt` from Ctrl+C). -/
inductive InEvent where
  | line (s : String)
  | eof
  | interrupt
deriving DecidableEq

/-- The loop states of the specification's state machine.  `DISPATCHING`
is transient (a dispatch happens within one iteration), so a trace records
only the resting states. -/
inductive LoopState where
  | waiting
  | terminated
deriving DecidableEq

/-- Observable trace of (part of) the chat loop: the resting state after
the consumed events, everything printed, and every string passed to the
agent's `get_response`. -/
structure LoopTrace where
  final : LoopState
  outputs : List String
  dispatched : List String
deriving DecidableEq

/-- One iteration of `Command._chat_loop` (lines 83-104) on one input
event.  The dispatch argument models `chatbot.get_response`; its `.error`
case is a raised exception with the given text, caught by the
`except Exception` handler of lines 102-104. -/
def chat_step (dispatch : String → Except String String) : InEvent → LoopTrace
  | .eof => ⟨.terminated, ["\n"], []⟩
  | .interrupt => ⟨.terminated, ["\n"], []⟩
  | .line s =>
    let t := py_strip s
    if is_sentinel t then
      ⟨.terminated, ["Bot: Goodbye!\n"], []⟩
    else if t = "" then
      ⟨.waiting, [], []⟩
    else
      match dispatch t with
      | .ok r => ⟨.waiting, ["Bot: " ++ r ++ "\n"], [t]⟩
      | .error e => ⟨.waiting, ["Bot: Sorry, I ran into a problem: " ++ e ++ "\n"], [t]⟩

/-- The `while True` loop of `Command._chat_loop`, run over a finite list
of input events.  If the events are exhausted without a terminating
iteration the loop is still waiting for input (`input()` would block). -/
def chat_loop (dispatch : String → Except String String) : List InEvent → LoopTrace
  | [] => ⟨.waiting, [], []⟩
  | ev :: rest =>
    let r := chat_step dispatch ev
    match r.final with
    | .terminated => r
    | .waiting =>
      let k := chat_loop dispatch rest
      ⟨k.final, r.outputs ++ k.outputs, r.dispatched ++ k.dispatched⟩

/-- The whole of `Command._chat_loop` including its opening banner
(lines 80-82). -/
def chat_loop_run (dispatch : String → Except String String)
    (events : List InEvent) : LoopTrace :=
  let t := chat_loop dispatch events
  { t with outputs :=
      "Bot is ready. Type your message, or type \"exit\" to quit.\n" :: t.outputs }

/-- Configuration of the single BestMatch logic adapter (lines 44-49). -/
structure LogicAdapterConfig where
  import_path : String
  default_response : String
  maximum_similarity_threshold : ℚ
deriving DecidableEq

/-- The configuration value handed to the `ChatBot` constructor by
`Command._build_chatbot` (lines 39-56). -/
structure ChatBotConfig where
  name : String
  storage_adapter : String
  database_uri : String
  logic_adapters : List LogicAdapterConfig
  preprocessors : List String
  read_only : Bool
deriving DecidableEq

/-- The configuration assembled by `Command._build_chatbot` (lines 39-56):
every field is a fixed literal except the read-only flag. -/
def build_chatbot_config (ro : Bool) : ChatBotConfig :=
  { name := "TerminalBot"
    storage_adapter := "chatterbot.storage.SQLStorageAdapter"
    database_uri := "sqlite:///chatterbot.sqlite3"
    logic_adapters :=
      [{ import_path := "chatterbot.logic.BestMatch"
         default_response := "I\x27m not sure I understand. Can you rephrase?"
         maximum_similarity_threshold := 0.80 }]
    preprocessors := ["chatterbot.preprocessors.clean_whitespace"]
    read_only := ro }

/-- Reading the read-only flag out of the parsed options with default
`False` (line 112); `--read-only` is a `store_true` flag, absent means
false. -/
def read_only_option (options : Option Bool) : Bool :=
  options.getD false

/-- Model of `Command._train_if_needed` (lines 59-76): prints a notice, runs the
trainer, and on a raised exception prints two warnings and returns
normally.  The result type has no error case: a training exception never
propagates. -/
def train_if_needed (train_result : Except String Unit) : List String :=
  "Preparing and training the bot (first run may take a while)...\n" ::
    match train_result with
    | .ok _ => []
    | .error exc =>
      ["Training warning: " ++ exc ++ "\n",
       "Continuing; the bot may have limited knowledge this run.\n"]

/-- Observable trace of one whole run of the command. -/
structure RunTrace where
  train_outputs : List String
  loop : LoopTrace
deriving DecidableEq

/-- Model of `Command.handle` (lines 106-114): build the chatbot, train, then run
the chat loop.  `construct` models the external `ChatBot` constructor,
`train` models `ChatterBotCorpusTrainer(...).train` on the fixed corpus
name, and `get_response` models `chatbot.get_response`.  A construction
exception is not caught anywhere, so it is the `.error` result of the
whole run. -/
def handle {Bot : Type} (construct : ChatBotConfig → Except String Bot)
    (train : Bot → Except String Unit)
    (get_response : Bot → String → Except String String)
    (options : Option Bool) (events : List InEvent) : Except String RunTrace :=
  match construct (build_chatbot_config (read_only_option options)) with
  | .error e => .error e
  | .ok bot =>
    .ok { train_outputs := train_if_needed (train bot)
          loop := chat_loop_run (get_response bot) events }

/-- The tail of `Command.handle` from the successful construction on: the part of the
run that does not depend on the command-line options. -/
def run_from_build {Bot : Type} (built : Except String Bot)
    (train : Bot → Except String Unit)
    (get_response : Bot → String → Except String String)
    (events : List InEvent) : Except String RunTrace :=
  match built with
  | .error e => .error e
  | .ok bot =>
    .ok { train_outputs := train_if_needed (train bot)
          loop := chat_loop_run (get_response bot) events }

/-! ### Helper lemmas about one loop iteration -/

/-- A sentinel line ends the loop without dispatching. -/
theorem chat_step_sentinel (d : String → Except String String) (s : String)
    (h : is_sentinel (py_strip s) = true) :
    chat_step d (.line s) = ⟨.terminated, ["Bot: Goodbye!\n"], []⟩ := by
  simp [chat_step, h]

/-- A line that strips to the empty string is a no-op iteration. -/
theorem chat_step_blank (d : String → Except String String) (s : String)
    (h : py_strip s = "") :
    chat_step d (.line s) = ⟨.waiting, [], []⟩ := by
  simp [chat_step, h, is_sentinel]
  decide

/-- A real query on which the agent answers. -/
theorem chat_step_ok (d : String → Except String String) (s r : String)
    (hs : is_sentinel (py_strip s) = false) (hne : py_strip s ≠ "")
    (hd : d (py_strip s) = .ok r) :
    chat_step d (.line s) = ⟨.waiting, ["Bot: " ++ r ++ "\n"], [py_strip s]⟩ := by
  simp [chat_step, hs, hne, hd]

/-- A real query on which the agent raises: the handler of lines 102-104
prints the diagnostic and the iteration ends back in the waiting state. -/
theorem chat_step_error (d : String → Except String String) (s e : String)
    (hs : is_sentinel (py_strip s) = false) (hne : py_strip s ≠ "")
    (hd : d (py_strip s) = .error e) :
    chat_step d (.line s) =
      ⟨.waiting, ["Bot: Sorry, I ran into a problem: " ++ e ++ "\n"], [py_strip s]⟩ := by
  simp [chat_step, hs, hne, hd]

/-- Unfolding the loop over an iteration that keeps waiting. -/
theorem chat_loop_cons_waiting (d : String → Except String String)
    (ev : InEvent) (rest : List InEvent) (out dis : List String)
    (h : chat_step d ev = ⟨.waiting, out, dis⟩) :
    chat_loop d (ev :: rest) =
      ⟨(chat_loop d rest).final, out ++ (chat_loop d rest).outputs,
        dis ++ (chat_loop d rest).dispatched⟩ := by
  simp [chat_loop, h]

/-- Unfolding the loop over a terminating iteration: later events are
never consumed. -/
theorem chat_loop_cons_terminated (d : String → Except String String)
    (ev : InEvent) (rest : List InEvent) (out dis : List String)
    (h : chat_step d ev = ⟨.terminated, out, dis⟩) :
    chat_loop d (ev :: rest) = ⟨.terminated, out, dis⟩ := by
  simp [chat_loop, h]

/-! ### Stripping lemmas: `py_strip` is idempotent, so every dispatched
string carries no leading or trailing whitespace. -/

/-- The head surviving a `dropWhile` fails the predicate. -/
theorem head?_dropWhile_not {α : Type} (p : α → Bool) (l : List α) (a : α)
    (h : (l.dropWhile p).head? = some a) : p a = false := by
  induction l with
  | nil => simp [List.dropWhile] at h
  | cons b l ih =>
    cases hb : p b with
    | true =>
      rw [List.dropWhile_cons_of_pos hb] at h
      exact ih h
    | false =>
      rw [List.dropWhile_cons_of_neg (by simp [hb])] at h
      simp at h
      rw [← h]
      exact hb

/-- A list whose head (if any) fails the predicate is unchanged by
`dropWhile`. -/
theorem dropWhile_eq_self_of_head {α : Type} (p : α → Bool) (l : List α)
    (h : ∀ a, l.head? = some a → p a = false) : l.dropWhile p = l := by
  cases l with
  | nil => rfl
  | cons b l => exact List.dropWhile_cons_of_neg (by simp [h b rfl])

/-- Dropping twice is dropping once. -/
theorem dropWhile_idem {α : Type} (p : α → Bool) (l : List α) :
    (l.dropWhile p).dropWhile p = l.dropWhile p :=
  dropWhile_eq_self_of_head p _ (fun a ha => head?_dropWhile_not p l a ha)

/-- Since `dropWhile` only removes elements from the front, a nonempty
result keeps the last element. -/
theorem getLast?_dropWhile {α : Type} (p : α → Bool) (l : List α)
    (h : l.dropWhile p ≠ []) : (l.dropWhile p).getLast? = l.getLast? := by
  induction l with
  | nil => exact absurd rfl h
  | cons b l ih =>
    cases hb : p b with
    | false => rw [List.dropWhile_cons_of_neg (by simp [hb])]
    | true =>
      rw [List.dropWhile_cons_of_pos hb] at h ⊢
      cases l with
      | nil => exact absurd rfl h
      | cons c l2 =>
        rw [List.getLast?_cons_cons]
        exact ih h

/-- Stripping both ends twice is stripping once. -/
theorem strip_chars_idem (l : List Char) :
    strip_chars (strip_chars l) = strip_chars l := by
  unfold strip_chars
  set p := is_py_space with hp
  set m := l.dropWhile p with hm
  set x := m.reverse.dropWhile p with hx
  have h1 : x.reverse.dropWhile p = x.reverse := by
    apply dropWhile_eq_self_of_head
    intro a ha
    rw [List.head?_reverse] at ha
    have hxne : x ≠ [] := by
      intro hnil
      rw [hnil] at ha
      simp at ha
    rw [hx, getLast?_dropWhile _ _ (hx ▸ hxne), List.getLast?_reverse] at ha
    exact head?_dropWhile_not _ _ _ (hm ▸ ha)
  rw [h1, List.reverse_reverse, hx, dropWhile_idem]

/-- Stripping is idempotent: a stripped string has no leading or
trailing whitespace left to strip. -/
theorem py_strip_idem (s : String) : py_strip (py_strip s) = py_strip s :=
  congrArg String.mk (strip_chars_idem s.data)

/-- One iteration only ever dispatches the stripped input line. -/
theorem chat_step_dispatched_stripped (d : String → Except String String)
    (ev : InEvent) : ∀ t ∈ (chat_step d ev).dispatched, py_strip t = t := by
  intro t ht
  cases ev with
  | eof => simp [chat_step] at ht
  | interrupt => simp [chat_step] at ht
  | line s =>
    by_cases hs : is_sentinel (py_strip s)
    · simp [chat_step, hs] at ht
    · by_cases he : py_strip s = ""
      · simp [chat_step, hs, he, show is_sentinel "" = false by decide] at ht
      · cases hd : d (py_strip s) with
        | ok r =>
          simp [chat_step, hs, he, hd] at ht
          rw [ht]
          exact py_strip_idem s
        | error e =>
          simp [chat_step, hs, he, hd] at ht
          rw [ht]
          exact py_strip_idem s

/-- Every string the loop ever hands to `get_response` has been
stripped. -/
theorem chat_loop_dispatched_stripped (d : String → Except String String)
    (evs : List InEvent) :
    ∀ t ∈ (chat_loop d evs).dispatched, py_strip t = t := by
  induction evs with
  | nil =>
    intro t ht
    simp [chat_loop] at ht
  | cons ev rest ih =>
    intro t ht
    cases hstep : chat_step d ev with
    | mk fin out dis =>
      cases fin with
      | terminated =>
        rw [chat_loop_cons_terminated d ev rest out dis hstep] at ht
        have h2 := chat_step_dispatched_stripped d ev t
        rw [hstep] at h2
        exact h2 ht
      | waiting =>
        rw [chat_loop_cons_waiting d ev rest out dis hstep] at ht
        simp only [List.mem_append] at ht
        rcases ht with h1 | h2
        · have h3 := chat_step_dispatched_stripped d ev t
          rw [hstep] at h3
          exact h3 h1
        · exact ih t h2

/-! ### Claim theorems -/

/-- C1: if the dispatch call raises on an input line, the loop prints a
diagnostic containing the exception text, ends the iteration in the
waiting state, and continues with the remaining events; the exception
never escapes the loop. -/
theorem claim_c1_dispatch_error_recovery (d : String → Except String String)
    (s e : String) (rest : List InEvent)
    (hs : is_sentinel (py_strip s) = false) (hne : py_strip s ≠ "")
    (hd : d (py_strip s) = .error e) :
    (chat_step d (.line s)).final = .waiting ∧
    chat_loop d (.line s :: rest) =
      ⟨(chat_loop d rest).final,
        ("Bot: Sorry, I ran into a problem: " ++ e ++ "\n") :: (chat_loop d rest).outputs,
        py_strip s :: (chat_loop d rest).dispatched⟩ := by
  have h := chat_step_error d s e hs hne hd
  constructor
  · rw [h]
  · rw [chat_loop_cons_waiting d (.line s) rest _ _ h]
    simp

/-- Witness for C1: the agent raises "boom" on the line "hi". -/
theorem claim_c1_dispatch_error_recovery_witness :
    is_sentinel (py_strip "hi") = false ∧ py_strip "hi" ≠ "" ∧
    (fun _ : String => (Except.error "boom" : Except String String)) (py_strip "hi") =
      .error "boom" ∧
    ((chat_step (fun _ : String => (Except.error "boom" : Except String String))
        (.line "hi")).final = .waiting ∧
      chat_loop (fun _ : String => (Except.error "boom" : Except String String))
          [.line "hi"] =
        ⟨(chat_loop (fun _ : String => (Except.error "boom" : Except String String))
            []).final,
          ("Bot: Sorry, I ran into a problem: " ++ "boom" ++ "\n") ::
            (chat_loop (fun _ : String => (Except.error "boom" : Except String String))
              []).outputs,
          py_strip "hi" ::
            (chat_loop (fun _ : String => (Except.error "boom" : Except String String))
              []).dispatched⟩) :=
  ⟨by decide, by decide, rfl,
    claim_c1_dispatch_error_recovery _ "hi" "boom" [] (by decide) (by decide) rfl⟩

/-- C2: a line equal to "exit" or "quit" up to case (and surrounding
whitespace) ends the loop at once, with no dispatch to the agent and no
further event consumed. -/
theorem claim_c2_sentinel_terminates (d : String → Except String String)
    (s : String) (rest : List InEvent)
    (h : is_sentinel (py_strip s) = true) :
    chat_loop d (.line s :: rest) = ⟨.terminated, ["Bot: Goodbye!\n"], []⟩ :=
  chat_loop_cons_terminated d _ rest _ _ (chat_step_sentinel d s h)

/-- Witness for C2 at the upper-case variant "EXIT". -/
theorem claim_c2_sentinel_terminates_witness :
    is_sentinel (py_strip "EXIT") = true ∧
    chat_loop (fun _ : String => (Except.ok " answer" : Except String String))
        [.line "EXIT", .line "later"] =
      ⟨.terminated, ["Bot: Goodbye!\n"], []⟩ :=
  ⟨by decide,
    claim_c2_sentinel_terminates _ "EXIT" [.line "later"] (by decide)⟩

/-- C4: an input line that strips to the empty string is a no-op
iteration: nothing is printed, nothing is dispatched, and the loop
behaves on the remaining events exactly as if the blank line had not
occurred. -/
theorem claim_c4_blank_line_noop (d : String → Except String String)
    (s : String) (rest : List InEvent) (h : py_strip s = "") :
    chat_step d (.line s) = ⟨.waiting, [], []⟩ ∧
    chat_loop d (.line s :: rest) = chat_loop d rest := by
  have hstep := chat_step_blank d s h
  refine ⟨hstep, ?_⟩
  rw [chat_loop_cons_waiting d _ rest _ _ hstep]
  simp

/-- Witness for C4 at a whitespace-only line. -/
theorem claim_c4_blank_line_noop_witness :
    py_strip "   " = "" ∧
    (chat_step (fun _ : String => (Except.ok "a" : Except String String))
        (.line "   ") = ⟨.waiting, [], []⟩ ∧
      chat_loop (fun _ : String => (Except.ok "a" : Except String String))
          [.line "   ", .eof] =
        chat_loop (fun _ : String => (Except.ok "a" : Except String String)) [.eof]) :=
  ⟨by decide, claim_c4_blank_line_noop _ "   " [.eof] (by decide)⟩

/-- C5: an end-of-input signal or an interrupt while waiting terminates
the loop, printing exactly one newline; nothing is dispatched, no later
event is consumed, and no exception leaves the loop. -/
theorem claim_c5_eof_interrupt_clean_exit (d : String → Except String String)
    (rest : List InEvent) :
    chat_loop d (.eof :: rest) = ⟨.terminated, ["\n"], []⟩ ∧
    chat_loop d (.interrupt :: rest) = ⟨.terminated, ["\n"], []⟩ :=
  ⟨chat_loop_cons_terminated d _ rest _ _ rfl,
    chat_loop_cons_terminated d _ rest _ _ rfl⟩

/-- C3: a training exception is caught, reported as two warning lines,
and the run still reaches the interactive loop: the result is a full run
trace whose loop part is the chat loop itself. -/
theorem claim_c3_training_failure_nonfatal {Bot : Type}
    (construct : ChatBotConfig → Except String Bot)
    (train : Bot → Except String Unit)
    (get_response : Bot → String → Except String String)
    (options : Option Bool) (events : List InEvent) (bot : Bot) (e : String)
    (hc : construct (build_chatbot_config (read_only_option options)) = .ok bot)
    (ht : train bot = .error e) :
    handle construct train get_response options events =
      .ok { train_outputs :=
              ["Preparing and training the bot (first run may take a while)...\n",
               "Training warning: " ++ e ++ "\n",
               "Continuing; the bot may have limited knowledge this run.\n"]
            loop := chat_loop_run (get_response bot) events } := by
  simp [handle, hc, train_if_needed, ht]

/-- Witness for C3: the trainer raises "no corpus" and the loop still
runs. -/
theorem claim_c3_training_failure_nonfatal_witness :
    (fun _ : ChatBotConfig => (Except.ok () : Except String Unit))
        (build_chatbot_config (read_only_option none)) = .ok () ∧
    (fun _ : Unit => (Except.error "no corpus" : Except String Unit)) () =
      .error "no corpus" ∧
    handle (fun _ : ChatBotConfig => (Except.ok () : Except String Unit))
        (fun _ : Unit => (Except.error "no corpus" : Except String Unit))
        (fun _ : Unit => fun _ : String => (Except.ok "pong" : Except String String))
        none [.eof] =
      .ok { train_outputs :=
              ["Preparing and training the bot (first run may take a while)...\n",
               "Training warning: " ++ "no corpus" ++ "\n",
               "Continuing; the bot may have limited knowledge this run.\n"]
            loop := chat_loop_run
              ((fun _ : Unit => fun _ : String => (Except.ok "pong" : Except String String)) ())
              [.eof] } :=
  ⟨rfl, rfl,
    claim_c3_training_failure_nonfatal _ _ _ none [.eof] () "no corpus" rfl rfl⟩

/-- C6: on the input sequence ["hello", "", "quit"] the loop dispatches
exactly once (the string "hello"), dispatches nothing for the blank
line, and terminates after "quit"; the run is a total function, so no
exception escapes. -/
theorem claim_c6_scenario_hello_blank_quit (d : String → Except String String) :
    (chat_loop d [.line "hello", .line "", .line "quit"]).final = .terminated ∧
    (chat_loop d [.line "hello", .line "", .line "quit"]).dispatched = ["hello"] := by
  have h2 := chat_step_blank d "" (by decide)
  have h3 := chat_step_sentinel d "quit" (by decide)
  cases hd : d "hello" with
  | ok r =>
    have h1 := chat_step_ok d "hello" r (by decide) (by decide) hd
    rw [chat_loop_cons_waiting d _ _ _ _ h1,
      chat_loop_cons_waiting d _ _ _ _ h2,
      chat_loop_cons_terminated d _ _ _ _ h3]
    exact ⟨rfl, rfl⟩
  | error e =>
    have h1 := chat_step_error d "hello" e (by decide) (by decide) hd
    rw [chat_loop_cons_waiting d _ _ _ _ h1,
      chat_loop_cons_waiting d _ _ _ _ h2,
      chat_loop_cons_terminated d _ _ _ _ h3]
    exact ⟨rfl, rfl⟩

/-- C7: an exception from the chatbot constructor is caught nowhere: it
is the result of the whole run, and no run trace (training output or
loop) is produced. -/
theorem claim_c7_construction_failure_propagates {Bot : Type}
    (construct : ChatBotConfig → Except String Bot)
    (train : Bot → Except String Unit)
    (get_response : Bot → String → Except String String)
    (options : Option Bool) (events : List InEvent) (e : String)
    (hc : construct (build_chatbot_config (read_only_option options)) = .error e) :
    handle construct train get_response options events = .error e := by
  simp [handle, hc]

/-- Witness for C7: a constructor failing with "missing backend". -/
theorem claim_c7_construction_failure_propagates_witness :
    (fun _ : ChatBotConfig => (Except.error "missing backend" : Except String Unit))
        (build_chatbot_config (read_only_option none)) = .error "missing backend" ∧
    handle (fun _ : ChatBotConfig => (Except.error "missing backend" : Except String Unit))
        (fun _ : Unit => (Except.ok () : Except String Unit))
        (fun _ : Unit => fun _ : String => (Except.ok "" : Except String String))
        none [.line "hello"] =
      .error "missing backend" :=
  ⟨rfl,
    claim_c7_construction_failure_propagates _ _ _ none [.line "hello"]
      "missing backend" rfl⟩

/-- C8: for either value of the read-only flag the configuration builder
yields, with no error case (it is a total function into configurations),
exactly the fixed store path, the single BestMatch policy with its
fallback response and a similarity threshold of 0.80, the
whitespace-collapsing preprocessor, and a read-only field equal to the
flag. -/
theorem claim_c8_config_contents (ro : Bool) :
    (build_chatbot_config ro).name = "TerminalBot" ∧
    (build_chatbot_config ro).storage_adapter = "chatterbot.storage.SQLStorageAdapter" ∧
    (build_chatbot_config ro).database_uri = "sqlite:///chatterbot.sqlite3" ∧
    (build_chatbot_config ro).logic_adapters =
      [{ import_path := "chatterbot.logic.BestMatch"
         default_response := "I\x27m not sure I understand. Can you rephrase?"
         maximum_similarity_threshold := 0.80 }] ∧
    (build_chatbot_config ro).preprocessors =
      ["chatterbot.preprocessors.clean_whitespace"] ∧
    (build_chatbot_config ro).read_only = ro :=
  ⟨rfl, rfl, rfl, rfl, rfl, rfl⟩

/-- C9: the loop strips each line before any other processing: a
sentinel surrounded by whitespace still terminates the loop without a
dispatch, and every string ever dispatched to the agent is left fixed by
stripping (it has no leading or trailing whitespace). -/
theorem claim_c9_strip_before_processing (d : String → Except String String)
    (evs : List InEvent) (s : String)
    (h : is_sentinel (py_strip s) = true) :
    chat_step d (.line s) = ⟨.terminated, ["Bot: Goodbye!\n"], []⟩ ∧
    (chat_loop d evs).dispatched.all (fun t => py_strip t == t) = true := by
  refine ⟨chat_step_sentinel d s h, ?_⟩
  rw [List.all_eq_true]
  intro t htmem
  simp [chat_loop_dispatched_stripped d evs t htmem]

/-- Witness for C9 at the whitespace-padded sentinel "  Exit  ". -/
theorem claim_c9_strip_before_processing_witness :
    is_sentinel (py_strip "  Exit  ") = true ∧
    (chat_step (fun _ : String => (Except.ok "hi" : Except String String))
        (.line "  Exit  ") = ⟨.terminated, ["Bot: Goodbye!\n"], []⟩ ∧
      (chat_loop (fun _ : String => (Except.ok "hi" : Except String String))
          [.line " ping "]).dispatched.all (fun t => py_strip t == t) = true) :=
  ⟨by decide,
    claim_c9_strip_before_processing _ [.line " ping "] "  Exit  " (by decide)⟩

/-- C10: the read-only flag defaults to false when absent; two
configurations built from different flag values differ in the read-only
field alone; and the whole run factors through the configuration handed
to the constructor, so the flag has no other path into the control
flow. -/
theorem claim_c10_read_only_frame (ro1 ro2 : Bool) :
    build_chatbot_config ro1 = { build_chatbot_config ro2 with read_only := ro1 } ∧
    read_only_option none = false ∧
    ∀ (Bot : Type) (construct : ChatBotConfig → Except String Bot)
      (train : Bot → Except String Unit)
      (get_response : Bot → String → Except String String)
      (options : Option Bool) (events : List InEvent),
      handle construct train get_response options events =
        run_from_build (construct (build_chatbot_config (read_only_option options)))
          train get_response events := by
  refine ⟨rfl, rfl, ?_⟩
  intro Bot construct train get_response options events
  unfold handle run_from_build
  cases construct (build_chatbot_config (read_only_option options)) <;> rfl
